import Mathlib

/-!
Verification of `SUAVE/Methods/Aerodynamics/AERODAS/AERODAS_setup.py`.

The module holds three functions operating on the framework's state bag:

* `setup_data(state, settings, geometry)` — replaces
  `state.conditions.aerodynamics.pre_stall_coefficients` and
  `.post_stall_coefficients` with fresh empty `Data()` containers;
* `lift_drag_total(state, settings, geometry)` — intended to blend, per
  wing, the pre-stall and post-stall lift/drag coefficient curves
  (Equations 3a-3c of the AERODAS model), accumulate area-weighted totals
  over the wings, add the drag-coefficient increment, store both totals
  back into the state and return them;
* `drag_total(state, settings, geometry)` — reads the stored aggregate
  drag coefficient back out of the state.

The file imports `jax.numpy as np` (line 11), not plain numpy.  JAX
arrays are immutable: `np.fmax(CL1, CL2)` at line 103 returns a
`jax.Array`, and the boolean-masked item assignment at line 106,
`CL[alpha <= A0] = np.fmin(...)`, calls `__setitem__` on that array,
which JAX rejects unconditionally with a TypeError.  Every iteration of
the wing loop therefore raises at line 106 — before the drag selection
(line 109), before the vertical check (line 114) and before the totals
are stored (lines 123-124).  `lift_drag_total` returns only when
`geometry.wings` is empty (the loop body never runs).

Embedding choices: numbers are `ℚ` (the float arithmetic of the source,
without rounding); 1-D arrays are `List ℚ`; the elementwise operations
are length-checked and return `none` where the library raises on a shape
mismatch (equal-length 1-D operands only, the shape discipline of this
module); the masked item assignment is `none` unconditionally, because
on a JAX array it raises whatever the operands are; the running totals,
which start as the Python scalar `0.`, are the sum type `Val` with numpy
scalar-array broadcasting; the `Data` attribute bags keyed by wing tag
are association lists, and attribute lookup that can raise is
`Option`-valued.  Each function returns the (possibly) updated state
explicitly; `lift_drag_total` is `Option`-valued, `none` standing for
the raised exception (no result, no state mutation).
-/

/-- A scalar or a 1-D array: the two shapes a running total takes in the
source (`CL_total = 0.` first, an array after the first accumulation). -/
inductive Val where
  | scalar (q : ℚ)
  | arr (l : List ℚ)
deriving DecidableEq

/-- `np.fmax` on two equal-length 1-D arrays (over `ℚ` there are no NaNs,
so `fmax` is elementwise `max`); `none` models the shape-mismatch error. -/
def fmax (a b : List ℚ) : Option (List ℚ) :=
  if a.length = b.length then some (a.zipWith max b) else none

/-- `np.fmin` on two equal-length 1-D arrays; elementwise `min`. -/
def fmin (a b : List ℚ) : Option (List ℚ) :=
  if a.length = b.length then some (a.zipWith min b) else none

/-- Boolean-mask selection `xs[mask]` for equal lengths: keep the entries
at the true positions (reading with a boolean mask works on concrete
arrays). -/
def compressMask : List ℚ → List Bool → List ℚ
  | x :: xs, b :: bs => if b then x :: compressMask xs bs else compressMask xs bs
  | _, _ => []

/-- `xs[mask]`, with the index error on a length mismatch as `none`. -/
def maskSelect (xs : List ℚ) (mask : List Bool) : Option (List ℚ) :=
  if xs.length = mask.length then some (compressMask xs mask) else none

/-- Boolean-mask item assignment `xs[mask] = vals` on a JAX array: JAX
arrays are immutable and `__setitem__` raises a TypeError
unconditionally, whatever the operands are, so the operation never
produces a value. -/
def maskAssign (_xs : List ℚ) (_mask : List Bool) (_vals : List ℚ) :
    Option (List ℚ) :=
  none

/-- numpy broadcast addition on scalars and equal-length 1-D arrays. -/
def bcastAdd : Val → Val → Option Val
  | Val.scalar a, Val.scalar b => some (Val.scalar (a + b))
  | Val.scalar a, Val.arr l => some (Val.arr (l.map (a + ·)))
  | Val.arr l, Val.scalar b => some (Val.arr (l.map (· + b)))
  | Val.arr l, Val.arr m =>
      if l.length = m.length then some (Val.arr (l.zipWith (· + ·) m)) else none

/-- One pre-stall or post-stall coefficient record
(`Data` with `lift_coefficient` and `drag_coefficient` arrays). -/
structure Curve where
  lift_coefficient : List ℚ
  drag_coefficient : List ℚ
deriving DecidableEq

/-- A wing: its `tag`, `areas.reference` and `vertical` flag
(the fields `lift_drag_total` reads). -/
structure Wing where
  tag : String
  areas_reference : ℚ
  vertical : Bool
deriving DecidableEq

/-- `geometry`: the total `reference_area` and the wing collection. -/
structure Geometry where
  reference_area : ℚ
  wings : List Wing
deriving DecidableEq

/-- `settings`: the zero-lift angle of attack and the drag increment. -/
structure Settings where
  section_zero_lift_angle_of_attack : ℚ
  drag_coefficient_increment : ℚ
deriving DecidableEq

/-- `state.conditions.aerodynamics`: the angle-of-attack samples, the two
per-wing curve bags (association lists keyed by wing tag, as `Data` is a
dict-like bag), and the two stored totals, `Option`-valued because reading
them before they were stored raises in the framework. -/
structure Aerodynamics where
  angle_of_attack : List ℚ
  pre_stall_coefficients : List (String × Curve)
  post_stall_coefficients : List (String × Curve)
  lift_coefficient : Option Val
  drag_coefficient : Option Val
deriving DecidableEq

/-- `state.conditions`. -/
structure Conditions where
  aerodynamics : Aerodynamics
deriving DecidableEq

/-- `state`. -/
structure State where
  conditions : Conditions
deriving DecidableEq

/-- `setup_data`: replaces the two coefficient bags with fresh empty
`Data()` containers and touches nothing else; the updated state is
returned explicitly (the Python function mutates `state` and returns
`None`). -/
def setup_data (state : State) (_settings : Settings) (_geometry : Geometry) : State :=
  { state with
    conditions := { state.conditions with
      aerodynamics := { state.conditions.aerodynamics with
        pre_stall_coefficients := []
        post_stall_coefficients := [] } } }

/-- Equations 3a and 3b (lines 102-106): `CL = np.fmax(CL1, CL2)`, then
`CL[alpha <= A0] = np.fmin(CL1[alpha <= A0], CL2[alpha <= A0])`.  As in
Python, the right-hand side of line 106 (selections and `fmin`) is
evaluated before the assignment; the assignment itself then raises on the
immutable JAX array, so the blend never yields a value. -/
def wingCL (CL1 CL2 alpha : List ℚ) (A0 : ℚ) : Option (List ℚ) := do
  let CL ← fmax CL1 CL2
  let mask := alpha.map (fun a => decide (a ≤ A0))
  let s1 ← maskSelect CL1 mask
  let s2 ← maskSelect CL2 mask
  let vals ← fmin s1 s2
  maskAssign CL mask vals

/-- Equation 3c (line 109): `CD = np.fmax(CD1, CD2)`.  In a loop
iteration this line is never reached: line 106 raises first. -/
def wingCD (CD1 CD2 : List ℚ) : Option (List ℚ) :=
  fmax CD1 CD2

/-- One iteration of the `for wing in geometry.wings` loop: look the
wing's curves up (lines 97-100, a missing tag raises there), blend them,
and add the area-weighted contributions to the running totals
(`CD_total` always, `CL_total` only when the wing is not vertical).
Because the lift blend aborts at the masked assignment, an iteration
never completes. -/
def wingStep (pre post : List (String × Curve)) (alpha : List ℚ) (A0 ref : ℚ)
    (acc : Val × Val) (wing : Wing) : Option (Val × Val) := do
  let area := wing.areas_reference
  let cpre ← pre.lookup wing.tag
  let cpost ← post.lookup wing.tag
  let CL ← wingCL cpre.lift_coefficient cpost.lift_coefficient alpha A0
  let CD ← wingCD cpre.drag_coefficient cpost.drag_coefficient
  let cdTot ← bcastAdd acc.2 (Val.arr (CD.map (fun x => x * area / ref)))
  let clTot ←
    if wing.vertical = false then
      bcastAdd acc.1 (Val.arr (CL.map (fun x => x * area / ref)))
    else
      pure acc.1
  pure (clTot, cdTot)

/-- The loop itself, threading the `(CL_total, CD_total)` accumulator. -/
def sumWings (pre post : List (String × Curve)) (alpha : List ℚ) (A0 ref : ℚ)
    (acc : Val × Val) : List Wing → Option (Val × Val)
  | [] => some acc
  | w :: rest => do
      let acc' ← wingStep pre post alpha A0 ref acc w
      sumWings pre post alpha A0 ref acc' rest

/-- `lift_drag_total` (lines 82-126): primes both totals with the scalar
`0.`, runs the per-wing loop, adds `settings.drag_coefficient_increment`
to `CD_total` once, packs both totals into
`state.conditions.aerodynamics` and returns them together with the
updated state.  With any nonempty wing collection the loop raises and
nothing is returned or stored. -/
def lift_drag_total (state : State) (settings : Settings) (geometry : Geometry) :
    Option (Val × Val × State) := do
  let ref := geometry.reference_area
  let aero := state.conditions.aerodynamics
  let alpha := aero.angle_of_attack
  let A0 := settings.section_zero_lift_angle_of_attack
  let (clTot, cdTot) ←
    sumWings aero.pre_stall_coefficients aero.post_stall_coefficients alpha A0 ref
      (Val.scalar 0, Val.scalar 0) geometry.wings
  let cdTot ← bcastAdd cdTot (Val.scalar settings.drag_coefficient_increment)
  let state' :=
    { state with
      conditions := { state.conditions with
        aerodynamics := { aero with
          lift_coefficient := some clTot
          drag_coefficient := some cdTot } } }
  pure (clTot, cdTot, state')

/-- `drag_total` (lines 134-155): read the stored aggregate drag
coefficient back out of the state; the read raises (here: `none`) when it
was never stored.  The state is not touched, so the embedding is a pure
read. -/
def drag_total (state : State) (_settings : Settings) (_geometry : Geometry) :
    Option Val :=
  state.conditions.aerodynamics.drag_coefficient

lemma bind_const_none {α β : Type} (o : Option α) :
    (o.bind fun _ => (none : Option β)) = none := by
  cases o <;> rfl

lemma wingCL_always_none (CL1 CL2 alpha : List ℚ) (A0 : ℚ) :
    wingCL CL1 CL2 alpha A0 = none := by
  simp only [wingCL, maskAssign, Option.bind_eq_bind', bind_const_none]

lemma wingStep_always_none (pre post : List (String × Curve)) (alpha : List ℚ)
    (A0 ref : ℚ) (acc : Val × Val) (w : Wing) :
    wingStep pre post alpha A0 ref acc w = none := by
  cases e1 : pre.lookup w.tag with
  | none => simp [wingStep, e1, Option.bind_eq_bind', Option.none_bind']
  | some cpre =>
      cases e2 : post.lookup w.tag with
      | none =>
          simp [wingStep, e1, e2, Option.bind_eq_bind', Option.some_bind',
            Option.none_bind']
      | some cpost =>
          simp [wingStep, e1, e2, wingCL_always_none, Option.bind_eq_bind',
            Option.some_bind', Option.none_bind']

lemma sumWings_cons_none (pre post : List (String × Curve)) (alpha : List ℚ)
    (A0 ref : ℚ) (acc : Val × Val) (w : Wing) (rest : List Wing) :
    sumWings pre post alpha A0 ref acc (w :: rest) = none := by
  simp [sumWings, wingStep_always_none, Option.bind_eq_bind', Option.none_bind']

lemma lift_drag_total_nonempty_none (s : State) (stg : Settings) (g : Geometry)
    (hw : g.wings ≠ []) : lift_drag_total s stg g = none := by
  obtain ⟨w, rest, hcons⟩ := List.exists_cons_of_ne_nil hw
  simp [lift_drag_total, hcons, sumWings_cons_none, Option.bind_eq_bind',
    Option.none_bind']

/-- Claim C1 (code bug): the per-wing lift blend of Equations 3a-3b is
never computed.  The source imports `jax.numpy`, whose arrays are
immutable, so the masked item assignment at line 106 raises a TypeError
on every execution; at the claim's own selection scenario the blend
fails instead of producing the max/min selection. -/
theorem masked_lift_blend_raises : wingCL [1, 5] [2, 3] [0, 1] 0 = none :=
  wingCL_always_none [1, 5] [2, 3] [0, 1] 0

/-- Claim C2 (code bug): the per-wing drag selection of line 109 is
unreachable inside `lift_drag_total` — every loop iteration raises at
line 106 first; at a concrete well-shaped one-wing input the whole call
fails instead of producing any drag coefficient. -/
theorem drag_selection_unreachable :
    lift_drag_total
      ⟨⟨⟨[0, 1], [("w", ⟨[1, 5], [3, 4]⟩)], [("w", ⟨[2, 3], [4, 3]⟩)], none, none⟩⟩⟩
      ⟨0, 0⟩ ⟨2, [⟨"w", 2, false⟩]⟩ = none :=
  lift_drag_total_nonempty_none
    ⟨⟨⟨[0, 1], [("w", ⟨[1, 5], [3, 4]⟩)], [("w", ⟨[2, 3], [4, 3]⟩)], none, none⟩⟩⟩
    ⟨0, 0⟩ ⟨2, [⟨"w", 2, false⟩]⟩ (by simp)

/-- Claim C3 (code bug): no run with a vertical wing returns at all — the
lift blend of lines 102-106 is computed (and raises) before the vertical
check at line 114, so `CL_total`/`CD_total` are never produced when a
vertical wing is present. -/
theorem vertical_wing_run_raises :
    lift_drag_total
      ⟨⟨⟨[0, 1], [("v", ⟨[1, 2], [3, 4]⟩)], [("v", ⟨[5, 6], [7, 8]⟩)], none, none⟩⟩⟩
      ⟨0, 0⟩ ⟨4, [⟨"v", 2, true⟩]⟩ = none :=
  lift_drag_total_nonempty_none
    ⟨⟨⟨[0, 1], [("v", ⟨[1, 2], [3, 4]⟩)], [("v", ⟨[5, 6], [7, 8]⟩)], none, none⟩⟩⟩
    ⟨0, 0⟩ ⟨4, [⟨"v", 2, true⟩]⟩ (by simp)

/-- Claim C4 (code bug): with a nonempty wing collection both runs — the
original increment and the increment raised by one — raise at line 106
and return no `CD_total` at all, so the shift-by-delta relation the
claim states is never exhibited by the code. -/
theorem drag_increment_runs_raise :
    (lift_drag_total
      ⟨⟨⟨[0], [("w", ⟨[2], [3]⟩)], [("w", ⟨[1], [4]⟩)], none, none⟩⟩⟩
      ⟨0, 0⟩ ⟨1, [⟨"w", 1, false⟩]⟩ = none) ∧
    (lift_drag_total
      ⟨⟨⟨[0], [("w", ⟨[2], [3]⟩)], [("w", ⟨[1], [4]⟩)], none, none⟩⟩⟩
      ⟨0, 1⟩ ⟨1, [⟨"w", 1, false⟩]⟩ = none) :=
  ⟨lift_drag_total_nonempty_none
      ⟨⟨⟨[0], [("w", ⟨[2], [3]⟩)], [("w", ⟨[1], [4]⟩)], none, none⟩⟩⟩
      ⟨0, 0⟩ ⟨1, [⟨"w", 1, false⟩]⟩ (by simp),
   lift_drag_total_nonempty_none
      ⟨⟨⟨[0], [("w", ⟨[2], [3]⟩)], [("w", ⟨[1], [4]⟩)], none, none⟩⟩⟩
      ⟨0, 1⟩ ⟨1, [⟨"w", 1, false⟩]⟩ (by simp)⟩

/-- Counterexample to C5 as stated: at a concrete empty-wings input whose
`total_reference_area` is `-1 ≤ 0`, `lift_drag_total` does not fail — it
returns a result, so there is no `InvalidGeometry` validation. -/
theorem no_invalid_geometry_check :
    (⟨-1, []⟩ : Geometry).reference_area ≤ 0 ∧
    (lift_drag_total ⟨⟨⟨[0], [], [], none, none⟩⟩⟩ ⟨0, 0⟩ ⟨-1, []⟩).isSome =
      true :=
  ⟨by decide, rfl⟩

/-- Claim C5 (amended): `lift_drag_total` defines no error kinds and
performs no input validation.  With any nonempty wing collection the
call fails unconditionally — the JAX masked item assignment at line 106
raises before any selection or totals (an absent wing tag fails at the
lookup just before), and no partial results are produced; with an empty
wing collection the call succeeds for every `total_reference_area`,
including values `≤ 0`, so neither a `ShapeMismatch` nor an
`InvalidGeometry` check exists. -/
theorem lift_drag_total_no_validation (s : State) (stg : Settings) (g : Geometry) :
    (g.wings ≠ [] → lift_drag_total s stg g = none) ∧
    (g.wings = [] → (lift_drag_total s stg g).isSome = true) := by
  constructor
  · exact fun hw => lift_drag_total_nonempty_none s stg g hw
  · intro hw
    have h : lift_drag_total s stg g =
        some (Val.scalar 0, Val.scalar (0 + stg.drag_coefficient_increment),
          { s with conditions := { s.conditions with aerodynamics :=
            { s.conditions.aerodynamics with
              lift_coefficient := some (Val.scalar 0)
              drag_coefficient :=
                some (Val.scalar (0 + stg.drag_coefficient_increment)) } } }) := by
      unfold lift_drag_total
      rw [hw]
      simp [sumWings, bcastAdd, Option.bind_eq_bind', Option.some_bind']
    rw [h]
    rfl

/-- Closed witness for the amended C5: an empty-wings input with
`total_reference_area = -1` still succeeds. -/
theorem lift_drag_total_no_validation_witness :
    (lift_drag_total ⟨⟨⟨[0], [], [], none, none⟩⟩⟩ ⟨0, 0⟩ ⟨-1, []⟩).isSome =
      true :=
  (lift_drag_total_no_validation ⟨⟨⟨[0], [], [], none, none⟩⟩⟩ ⟨0, 0⟩
    ⟨-1, []⟩).2 rfl

/-- Claim C6 (code bug): at a single-wing input whose area equals the
total reference area, the call raises at the masked assignment of
line 106 instead of returning the blended coefficients the claim
expects. -/
theorem single_wing_run_raises :
    lift_drag_total
      ⟨⟨⟨[0, 1], [("w", ⟨[1, 5], [3, 4]⟩)], [("w", ⟨[2, 3], [4, 3]⟩)], none, none⟩⟩⟩
      ⟨0, 7⟩ ⟨2, [⟨"w", 2, false⟩]⟩ = none :=
  lift_drag_total_nonempty_none
    ⟨⟨⟨[0, 1], [("w", ⟨[1, 5], [3, 4]⟩)], [("w", ⟨[2, 3], [4, 3]⟩)], none, none⟩⟩⟩
    ⟨0, 7⟩ ⟨2, [⟨"w", 2, false⟩]⟩ (by simp)

/-- Counterexample to C7 as stated: at a concrete empty-wings input — the
only kind of input on which the source reaches the stores of lines
123-124 — the `lift_coefficient` field is `none` before the call and
`some` in the state the call returns, so the state is not the same after
the call. -/
theorem lift_drag_total_mutates_state :
    ((lift_drag_total ⟨⟨⟨[0], [], [], none, none⟩⟩⟩ ⟨0, 5⟩ ⟨1, []⟩).map
      (fun r => r.2.2.conditions.aerodynamics.lift_coefficient) =
        some (some (Val.scalar 0))) ∧
    (⟨⟨⟨[0], [], [], none, none⟩⟩⟩ :
        State).conditions.aerodynamics.lift_coefficient = none :=
  ⟨rfl, rfl⟩

/-- Claim C7 (amended): `lift_drag_total` is not effect-free on the runs
that complete — whenever it returns (with this code, exactly the
empty-wings calls; any nonempty wing collection raises at line 106
before lines 123-124), the state it hands back is the input state with
`lift_coefficient` and `drag_coefficient` replaced by the returned
`CL_total` and `CD_total`, every other field unchanged. -/
theorem lift_drag_total_stores_results (s : State) (stg : Settings) (g : Geometry)
    (cl cd : Val) (s' : State)
    (h : lift_drag_total s stg g = some (cl, cd, s')) :
    s' = { s with conditions := { s.conditions with aerodynamics :=
      { s.conditions.aerodynamics with
        lift_coefficient := some cl
        drag_coefficient := some cd } } } := by
  simp only [lift_drag_total, Option.bind_eq_bind'] at h
  cases e1 : sumWings s.conditions.aerodynamics.pre_stall_coefficients
      s.conditions.aerodynamics.post_stall_coefficients
      s.conditions.aerodynamics.angle_of_attack
      stg.section_zero_lift_angle_of_attack g.reference_area
      (Val.scalar 0, Val.scalar 0) g.wings with
  | none =>
      rw [e1] at h
      simp [Option.none_bind'] at h
  | some p =>
      obtain ⟨clT, cdT⟩ := p
      rw [e1] at h
      simp only [Option.some_bind'] at h
      cases e2 : bcastAdd cdT (Val.scalar stg.drag_coefficient_increment) with
      | none =>
          rw [e2] at h
          simp [Option.none_bind'] at h
      | some v =>
          rw [e2] at h
          simp only [Option.some_bind', Option.pure_def, Option.some.injEq,
            Prod.mk.injEq] at h
          obtain ⟨h1, h2, h3⟩ := h
          subst h1
          subst h2
          subst h3
          rfl

/-- Closed witness for the amended C7: at a concrete empty-wings input
the returned state is exactly the input state with the two totals
stored. -/
theorem lift_drag_total_stores_results_witness :
    (⟨⟨⟨[0], [], [], some (Val.scalar 0), some (Val.scalar (0 + 5))⟩⟩⟩ : State) =
      { (⟨⟨⟨[0], [], [], none, none⟩⟩⟩ : State) with
        conditions := { (⟨⟨⟨[0], [], [], none, none⟩⟩⟩ :
            State).conditions with
          aerodynamics := { (⟨⟨⟨[0], [], [], none, none⟩⟩⟩ :
              State).conditions.aerodynamics with
            lift_coefficient := some (Val.scalar 0)
            drag_coefficient := some (Val.scalar (0 + 5)) } } } :=
  lift_drag_total_stores_results ⟨⟨⟨[0], [], [], none, none⟩⟩⟩ ⟨0, 5⟩ ⟨1, []⟩
    (Val.scalar 0) (Val.scalar (0 + 5))
    ⟨⟨⟨[0], [], [], some (Val.scalar 0), some (Val.scalar (0 + 5))⟩⟩⟩ rfl

/-- Claim C8: `drag_total` returns the previously stored aggregate drag
coefficient unchanged, and fails when it was never stored.  The embedding
of `drag_total` is a pure read of the state, so the state is unmodified
by construction. -/
theorem drag_total_returns_stored (s : State) (stg : Settings) (g : Geometry) :
    (∀ v, s.conditions.aerodynamics.drag_coefficient = some v →
      drag_total s stg g = some v) ∧
    (s.conditions.aerodynamics.drag_coefficient = none →
      drag_total s stg g = none) :=
  ⟨fun _ h => h, fun h => h⟩

/-- Closed witness for C8: a concrete state holding the aggregate
`Val.scalar 3` gives it back unchanged. -/
theorem drag_total_returns_stored_witness :
    drag_total ⟨⟨⟨[], [], [], none, some (Val.scalar 3)⟩⟩⟩ ⟨0, 0⟩ ⟨1, []⟩ =
      some (Val.scalar 3) :=
  (drag_total_returns_stored ⟨⟨⟨[], [], [], none, some (Val.scalar 3)⟩⟩⟩ ⟨0, 0⟩
    ⟨1, []⟩).1 (Val.scalar 3) rfl

/-- Claim C9: with an empty wing collection `lift_drag_total` does not
fail; it returns the Python scalar `0.` as `CL_total` and the scalar
`drag_coefficient_increment` as `CD_total` (the `Val.scalar` shape, not
arrays of `alpha`'s length). -/
theorem empty_wings_scalar_totals (s : State) (stg : Settings) (g : Geometry)
    (hw : g.wings = []) :
    ∃ s', lift_drag_total s stg g =
      some (Val.scalar 0, Val.scalar stg.drag_coefficient_increment, s') := by
  have h : lift_drag_total s stg g =
      some (Val.scalar 0, Val.scalar (0 + stg.drag_coefficient_increment),
        { s with conditions := { s.conditions with aerodynamics :=
          { s.conditions.aerodynamics with
            lift_coefficient := some (Val.scalar 0)
            drag_coefficient :=
              some (Val.scalar (0 + stg.drag_coefficient_increment)) } } }) := by
    unfold lift_drag_total
    rw [hw]
    simp [sumWings, bcastAdd, Option.bind_eq_bind', Option.some_bind']
  rw [zero_add] at h
  exact ⟨_, h⟩

/-- Closed witness for C9: empty wings, `drag_coefficient_increment = 7`,
a nonempty `alpha`. -/
theorem empty_wings_scalar_totals_witness :
    ∃ s', lift_drag_total ⟨⟨⟨[5], [], [], none, none⟩⟩⟩ ⟨2, 7⟩ ⟨3, []⟩ =
      some (Val.scalar 0, Val.scalar 7, s') :=
  empty_wings_scalar_totals ⟨⟨⟨[5], [], [], none, none⟩⟩⟩ ⟨2, 7⟩ ⟨3, []⟩ rfl

/-- Claim C10: `setup_data` replaces the pre-stall and the post-stall
coefficient bag with fresh empty containers, whatever was stored there
before, and leaves every other field of the state (the angle of attack
and the two stored totals) unchanged; the Python function returns `None`,
the mutation being its only effect. -/
theorem setup_data_resets_coefficient_bags (s : State) (stg : Settings) (g : Geometry) :
    (setup_data s stg g).conditions.aerodynamics.pre_stall_coefficients = [] ∧
    (setup_data s stg g).conditions.aerodynamics.post_stall_coefficients = [] ∧
    (setup_data s stg g).conditions.aerodynamics.angle_of_attack =
      s.conditions.aerodynamics.angle_of_attack ∧
    (setup_data s stg g).conditions.aerodynamics.lift_coefficient =
      s.conditions.aerodynamics.lift_coefficient ∧
    (setup_data s stg g).conditions.aerodynamics.drag_coefficient =
      s.conditions.aerodynamics.drag_coefficient :=
  ⟨rfl, rfl, rfl, rfl, rfl⟩
